import Mathlib

/-!
Verification of the AISPGRusingOSI risk scoring and alerting engine.

This file gives a shallow embedding, over exact rational arithmetic, of the
scoring core found in backend/app/scoring: the four signal calculators
(risk_engine.py), the confidence scorer (confidence.py), and the advanced
alert detector (alerts.py), together with the stateful aggregation entry
point RiskScoringEngine.calculate_overall_risk.

Modelling conventions:
  - Python floats are modelled as rationals; round(x, 2) is modelled by
    round2 (round half to even at two decimals, the idealized semantics of
    the Python builtin).
  - datetime values are modelled as integer epoch seconds; timedelta(days=d)
    is d * 86400 seconds and timedelta(hours=h) is h * 3600 seconds.
  - Python dicts returned by the signal calculators are modelled by the
    Signal structure whose field defaults mirror dict.get defaults.
  - Database queries are modelled by filters over in-memory lists.  SQL
    result ordering is reproduced where a consumer depends on it (argmax by
    date for ORDER BY date DESC ... first()); it is left unspecified where
    no consumer depends on it (mean and standard deviation of historical
    scores are order independent).
  - The SQLAlchemy session is modelled by a DB value with committed stores
    and a pending list; add appends to pending, commit either moves pending
    into the committed store or fails, rollback discards pending.
  - Exceptions crossing a modelled boundary are modelled with Except.
-/

namespace AISPGR

/-! ## Rounding and clamping helpers -/

/-- Round a rational to the nearest integer, ties to the even integer
(the idealized semantics of Python round). -/
def roundHalfEven (q : ℚ) : ℤ :=
  let f := ⌊q⌋
  let frac := q - (f : ℚ)
  if frac < 1/2 then f
  else if 1/2 < frac then f + 1
  else if f % 2 = 0 then f else f + 1

/-- Model of Python round(x, 2). -/
def round2 (q : ℚ) : ℚ := ((roundHalfEven (q * 100) : ℤ) : ℚ) / 100

/-- Model of max(0.0, min(x, 100.0)), the explicit clamping used by the
signal calculators. -/
def clamp100 (q : ℚ) : ℚ := max 0 (min q 100)

/-! ## Statistics helpers (Python statistics.mean / statistics.stdev) -/

def listMean (xs : List ℚ) : ℚ := xs.sum / (xs.length : ℚ)

/-- Sample standard deviation.  The square root of the sample variance is
taken with Rat.sqrt, a rational stand-in for the float square root; no
claim in this development depends on a branch that evaluates it on a
non-square variance. -/
def sampleStdev (xs : List ℚ) : ℚ :=
  Rat.sqrt ((xs.map (fun x => (x - listMean xs) ^ 2)).sum / ((xs.length : ℚ) - 1))

/-! ## Data model (backend/app/models/sql_models.py) -/

/-- Row of the risk_scores table (fields the scoring core reads or writes;
calculation_metadata and created_at carry no behaviour and are omitted). -/
structure RiskScoreRec where
  id : Nat
  country_code : String
  date : Int
  overall_score : ℚ
  news_signal_score : ℚ := 0
  conflict_signal_score : ℚ := 0
  economic_signal_score : ℚ := 0
  government_signal_score : ℚ := 0
  confidence_score : ℚ := 0
  trend : String := "stable"
deriving Repr, DecidableEq

/-- Row of the alerts table (fields the detector writes; title, description
and the evidence JSON are presentation-only strings and are omitted). -/
structure AlertRec where
  country_code : String
  alert_type : String
  severity : String
  triggered_at : Int
  risk_score : ℚ
  previous_score : Option ℚ := none
  confidence_score : ℚ := 0
  change_percentage : ℚ := 0
  status : String := "new"
deriving Repr, DecidableEq

/-- Row of the conflict_events table (fields read by the conflict signal;
a NULL event_type is modelled by the empty string, matching the
`event.event_type or ""` coercion in the source). -/
structure ConflictEventRec where
  country_code : String
  event_date : Int
  event_type : String := ""
  fatalities : Option Nat := none
deriving Repr, DecidableEq

/-- A news article document as read by the news signal calculator. -/
structure Article where
  title : String := ""
  content : String := ""
deriving Repr, DecidableEq

/-- Result dict of a signal calculator.  Field defaults mirror the
dict.get defaults used by consumers (confidence.py reads every signal dict
with .get and a default).  days_analyzed is optional because its .get
default differs per consumer call site (7 for news, 30 for conflict and
government). -/
structure Signal where
  score : ℚ := 0
  article_count : Nat := 0
  negative_count : Nat := 0
  event_count : Nat := 0
  total_fatalities : Nat := 0
  high_casualty_events : Nat := 0
  avg_severity : ℚ := 0
  escalation_rate : ℚ := 0
  reports_analyzed : Nat := 0
  gdp_score : ℚ := 0
  inflation_score : ℚ := 0
  unemployment_score : ℚ := 0
  days_analyzed : Option Nat := none
  method : String := ""
  error : Option String := none
deriving Repr, DecidableEq

/-- Aggregate sentiment produced by the ML analyzer; only mean_score feeds
the score computation (the share fields are echoed to the output only). -/
structure MLAggregate where
  mean_score : ℚ
deriving Repr, DecidableEq

/-- The persistent state visible to one scoring run: committed risk scores
and alerts, plus the uncommitted pending adds of the session. -/
structure DB where
  riskScores : List RiskScoreRec := []
  alerts : List AlertRec := []
  pending : List RiskScoreRec := []
deriving Repr, DecidableEq

/-! ## News signal (RiskScoringEngine.calculate_news_signal) -/

def negative_keywords : List String :=
  ["protest", "riot", "violence", "conflict", "crisis",
   "terrorism", "attack", "strike", "unrest", "tension",
   "war", "emergency", "threat", "sanction"]

/-- Substring containment test (Python `keyword in text`). -/
def strContains (s pat : String) : Bool := (s.splitOn pat).length ≠ 1

/-- Whether the lowercased title-plus-content of an article contains a
negative keyword. -/
def article_is_negative (a : Article) : Bool :=
  let text := (a.title ++ " " ++ a.content).toLower
  negative_keywords.any fun kw => strContains text kw

/-- Keyword-based (Phase 1) news scoring branch. -/
def news_keyword_result (articles : List Article) (days : Nat) : Signal :=
  let article_count := articles.length
  let negative_count := (articles.filter article_is_negative).length
  let volume_score : ℚ := min ((article_count : ℚ) / 20 * 50) 50
  let negative_score : ℚ := ((negative_count : ℚ) / (article_count : ℚ)) * 50
  { score := round2 (clamp100 (volume_score + negative_score)),
    article_count := article_count,
    negative_count := negative_count,
    method := "keyword",
    days_analyzed := some days }

/-- Model of calculate_news_signal.  The article fetch (MongoDB query with
the date-filter retry collapsed into one outcome) is the computation whose
exception escapes to the outer try; the ML sentiment stage has its own
inner try whose failure falls back to the keyword branch. -/
def calculate_news_signal (fetch : Except String (List Article))
    (ml : Except String MLAggregate) (use_ml : Bool) (days : Nat) : Signal :=
  match fetch with
  | Except.error e => { score := 0, error := some e, method := "error" }
  | Except.ok articles =>
    let article_count := articles.length
    if article_count = 0 then
      { score := 0, article_count := 0, method := "none", days_analyzed := some days }
    else if use_ml then
      match ml with
      | Except.ok agg =>
        let volume_score : ℚ := min ((article_count : ℚ) / 20 * 40) 40
        let sentiment_score : ℚ := (1 - agg.mean_score) / 2 * 60
        { score := round2 (clamp100 (volume_score + sentiment_score)),
          article_count := article_count,
          method := "ml_sentiment",
          days_analyzed := some days }
      | Except.error _ => news_keyword_result articles days
    else news_keyword_result articles days

/-! ## Conflict signal (RiskScoringEngine.calculate_conflict_signal) -/

/-- Event type severity weights, default 5 for unknown types. -/
def event_severity_weight (t : String) : ℚ :=
  if t = "Battles" then 10
  else if t = "Violence against civilians" then 10
  else if t = "Explosions/Remote violence" then 9
  else if t = "Riots" then 7
  else if t = "Protests" then 4
  else if t = "Strategic developments" then 3
  else 5

/-- Casualty impact multiplier per event. -/
def casualty_multiplier (fatalities : Nat) : ℚ :=
  if 50 < fatalities then 3/2
  else if 10 < fatalities then 13/10
  else if 0 < fatalities then 11/10
  else 1

/-- Event frequency component: min(event_count / 15.0 * 40, 40). -/
def frequency_score (event_count : Nat) : ℚ := min ((event_count : ℚ) / 15 * 40) 40

/-- Model of calculate_conflict_signal over the conflict_events table.
The window midpoint cutoff + timedelta(days = days / 2) is exactly
cutoff + days * 43200 seconds. -/
def calculate_conflict_signal (events_db : List ConflictEventRec) (now : Int)
    (country_code : String) (days : Nat) : Signal :=
  let cutoff : Int := now - (days : Int) * 86400
  let events := events_db.filter fun e =>
    decide (e.country_code = country_code) && decide (cutoff ≤ e.event_date)
  let event_count := events.length
  if event_count = 0 then
    { score := 0, event_count := 0, total_fatalities := 0, days_analyzed := some days }
  else
    let midpoint : Int := cutoff + (days : Int) * 43200
    let first_half := events.filter fun e => decide (e.event_date < midpoint)
    let second_half := events.filter fun e => decide (midpoint ≤ e.event_date)
    let escalation_rate : ℚ :=
      if 0 < first_half.length then
        (((second_half.length : ℚ) - (first_half.length : ℚ)) / (first_half.length : ℚ)) * 100
      else 0
    let total_fatalities : Nat := (events.map fun e => e.fatalities.getD 0).sum
    let severity_sum : ℚ :=
      (events.map fun e =>
        event_severity_weight e.event_type * casualty_multiplier (e.fatalities.getD 0)).sum
    let high_casualty_events :=
      (events.filter fun e => decide (50 < e.fatalities.getD 0)).length
    let avg_severity : ℚ := severity_sum / (event_count : ℚ)
    let severity_score : ℚ := avg_severity / 15 * 35
    let fatality_score : ℚ := min ((total_fatalities : ℚ) / 50 * 20) 20
    let escalation_bonus : ℚ := min (max (escalation_rate / 100 * 5) 0) 5
    let total := frequency_score event_count + severity_score + fatality_score + escalation_bonus
    { score := clamp100 total,
      event_count := event_count,
      total_fatalities := total_fatalities,
      high_casualty_events := high_casualty_events,
      avg_severity := round2 avg_severity,
      escalation_rate := round2 escalation_rate,
      days_analyzed := some days }

/-! ## Economic signal (RiskScoringEngine.calculate_economic_signal) -/

def score_gdp_growth (values : List ℚ) : ℚ :=
  match values with
  | [] => 50
  | latest :: _ =>
    if latest < 0 then 90
    else if latest < 2 then 65
    else if latest < 4 then 45
    else if latest < 6 then 25
    else if latest < 8 then 15
    else 5

def score_inflation (values : List ℚ) : ℚ :=
  match values with
  | [] => 50
  | latest :: _ =>
    if 10 < latest then 85
    else if 7 < latest then 65
    else if 5 < latest then 45
    else if 3 < latest then 25
    else if 2 < latest then 15
    else 5

def score_unemployment (values : List ℚ) : ℚ :=
  match values with
  | [] => 50
  | latest :: _ =>
    if 15 < latest then 90
    else if 12 < latest then 75
    else if 9 < latest then 60
    else if 7 < latest then 45
    else if 5 < latest then 30
    else if 3 < latest then 15
    else 5

/-- Model of calculate_economic_signal.  The two-year indicator gathering
loop is modelled by passing the value list of each indicator directly
(current-year value first, matching the query order). -/
def calculate_economic_signal (gdp_values inflation_values unemployment_values : List ℚ) :
    Signal :=
  let gdp_score := score_gdp_growth gdp_values
  let inflation_score := score_inflation inflation_values
  let unemployment_score := score_unemployment unemployment_values
  let total := gdp_score * (40/100) + inflation_score * (40/100) + unemployment_score * (20/100)
  { score := clamp100 total,
    gdp_score := round2 gdp_score,
    inflation_score := round2 inflation_score,
    unemployment_score := round2 unemployment_score }

/-! ## Confidence scorer (backend/app/scoring/confidence.py) -/

/-- Data source count component (0-100). -/
def source_count_score (news conflict economic government : Signal) : ℚ :=
  let active_sources : ℚ :=
    (if 5 < news.article_count then 1 else 0) +
    (if 3 < conflict.event_count then 1 else 0) +
    (if 0 < economic.score then 1 else 0) +
    (if 3 < government.reports_analyzed then 1 else 0)
  let data_volume_score : ℚ :=
    (if 5 < news.article_count then min ((news.article_count : ℚ) / 50 * 25) 25 else 0) +
    (if 3 < conflict.event_count then min ((conflict.event_count : ℚ) / 30 * 25) 25 else 0) +
    (if 0 < economic.score then 25 else 0) +
    (if 3 < government.reports_analyzed then
      min ((government.reports_analyzed : ℚ) / 20 * 25) 25 else 0)
  min (active_sources / 4 * 50 + min data_volume_score 50) 100

/-- Data freshness component (0-100). -/
def freshness_score (news conflict economic government : Signal) : ℚ :=
  let news_part : ℚ :=
    if 0 < news.article_count then 30
    else if news.days_analyzed.getD 7 ≤ 7 then 15 else 0
  let conflict_part : ℚ :=
    if 0 < conflict.event_count then 30
    else if conflict.days_analyzed.getD 30 ≤ 30 then 15 else 0
  let economic_part : ℚ := if 0 < economic.score then 20 else 0
  let government_part : ℚ :=
    if 0 < government.reports_analyzed then 20
    else if government.days_analyzed.getD 30 ≤ 30 then 10 else 0
  min (news_part + conflict_part + economic_part + government_part) 100

/-- The list of strictly positive signal scores gathered by the consistency
component. -/
def positive_scores (news conflict economic government : Signal) : List ℚ :=
  (if 0 < news.score then [news.score] else []) ++
  (if 0 < conflict.score then [conflict.score] else []) ++
  (if 0 < economic.score then [economic.score] else []) ++
  (if 0 < government.score then [government.score] else [])

/-- Signal consistency component (0-100); 50 when fewer than two signals
carry a positive score. -/
def consistency_score (news conflict economic government : Signal) : ℚ :=
  let scores := positive_scores news conflict economic government
  if scores.length < 2 then 50
  else min (max 0 (100 - sampleStdev scores / 30 * 100)) 100

/-- Historical validation component (0-100); 50 when fewer than three
historical scores exist. -/
def historical_validation (historical_scores : List ℚ) : ℚ :=
  if historical_scores.length < 3 then 50
  else
    let std_dev := sampleStdev historical_scores
    let v : ℚ :=
      if std_dev ≤ 10 then 100 - std_dev * 3
      else if std_dev ≤ 30 then 70 - (std_dev - 10) * 2
      else max 0 (30 - (std_dev - 30))
    max 0 (min v 100)

/-- Numeric confidence to level (applied to the unrounded score, as in the
source). -/
def get_confidence_level (score : ℚ) : String :=
  if 80 ≤ score then "very_high"
  else if 65 ≤ score then "high"
  else if 50 ≤ score then "medium"
  else if 35 ≤ score then "low"
  else "very_low"

/-- Result of ConfidenceScorer.calculate_confidence. -/
structure ConfidenceResult where
  confidence_score : ℚ
  source_count : ℚ
  freshness : ℚ
  consistency : ℚ
  historical : ℚ
  confidence_level : String
deriving Repr, DecidableEq

/-- Model of ConfidenceScorer.calculate_confidence (the happy path; its
outer except branch is unreachable in the model since every component is
total). -/
def calculate_confidence (news conflict economic government : Signal)
    (historical_scores : List ℚ) : ConfidenceResult :=
  let sc := source_count_score news conflict economic government
  let fr := freshness_score news conflict economic government
  let co := consistency_score news conflict economic government
  let hi := historical_validation historical_scores
  let raw := sc * (30/100) + fr * (25/100) + co * (25/100) + hi * (20/100)
  { confidence_score := round2 raw,
    source_count := round2 sc,
    freshness := round2 fr,
    consistency := round2 co,
    historical := round2 hi,
    confidence_level := get_confidence_level raw }

/-! ## Advanced alert detector (backend/app/scoring/alerts.py) -/

/-- Candidate alert dict produced by one pattern check (title, description
and the evidence JSON are presentation-only and omitted). -/
structure AlertCandidate where
  alert_type : String
  severity : String
  risk_score : ℚ
  previous_score : Option ℚ := none
  confidence_score : ℚ := 0
  change_percentage : ℚ := 0
deriving Repr, DecidableEq

/-- Cutoff of AdvancedAlertDetector._get_previous_score, including the
Python truthiness of the optional hours and days arguments. -/
def prev_cutoff (now : Int) (days hours : Option Nat) : Int :=
  if hours.getD 0 ≠ 0 then now - (hours.getD 0 : Int) * 3600
  else if days.getD 0 ≠ 0 then now - (days.getD 0 : Int) * 86400
  else now - 86400

/-- Records matching the previous-score query: same country, dated strictly
before now and no earlier than the cutoff. -/
def qualifying_scores (rs : List RiskScoreRec) (now cutoff : Int) (country_code : String) :
    List RiskScoreRec :=
  rs.filter fun r =>
    decide (r.country_code = country_code) && decide (r.date < now) && decide (cutoff ≤ r.date)

/-- Keep the later-dated of two records (first argument wins ties, matching
an unspecified SQL tie order). -/
def laterOf (a b : RiskScoreRec) : RiskScoreRec := if a.date < b.date then b else a

/-- ORDER BY date DESC ... first(): the maximal-date element. -/
def latestByDate : List RiskScoreRec → Option RiskScoreRec
  | [] => none
  | r :: rest => some (rest.foldl laterOf r)

/-- Keep the earlier-dated of two records. -/
def earlierOf (a b : RiskScoreRec) : RiskScoreRec := if b.date < a.date then b else a

/-- ORDER BY date ASC ... first element. -/
def earliestByDate : List RiskScoreRec → Option RiskScoreRec
  | [] => none
  | r :: rest => some (rest.foldl earlierOf r)

/-- Model of AdvancedAlertDetector._get_previous_score. -/
def get_previous_score (rs : List RiskScoreRec) (now : Int) (country_code : String)
    (days hours : Option Nat) : Option RiskScoreRec :=
  latestByDate (qualifying_scores rs now (prev_cutoff now days hours) country_code)

/-- Model of AdvancedAlertDetector._calculate_severity. -/
def calculate_severity (change_percent : ℚ) (alert_type : String) : String :=
  if alert_type = "increase" then
    if 40 ≤ change_percent then "critical"
    else if 25 ≤ change_percent then "high"
    else if 15 ≤ change_percent then "medium"
    else "low"
  else "medium"

/-- Model of _check_risk_increase (>15 percent over the last 7 days). -/
def check_risk_increase (db : DB) (now : Int) (country_code : String)
    (current_score confidence_score : ℚ) : Option AlertCandidate :=
  match get_previous_score db.riskScores now country_code (some 7) none with
  | none => none
  | some previous =>
    let previous_score := previous.overall_score
    let change := current_score - previous_score
    let change_percent := if 0 < previous_score then change / previous_score * 100 else 0
    if 15 ≤ change_percent then
      some { alert_type := "risk_increase",
             severity := calculate_severity change_percent "increase",
             risk_score := current_score,
             previous_score := some previous_score,
             confidence_score := confidence_score,
             change_percentage := change_percent }
    else none

/-- Model of _check_sudden_spike (>30 percent within 24 hours). -/
def check_sudden_spike (db : DB) (now : Int) (country_code : String)
    (current_score confidence_score : ℚ) : Option AlertCandidate :=
  match get_previous_score db.riskScores now country_code none (some 24) with
  | none => none
  | some previous =>
    let previous_score := previous.overall_score
    let change := current_score - previous_score
    let change_percent := if 0 < previous_score then change / previous_score * 100 else 0
    if 30 ≤ change_percent then
      some { alert_type := "sudden_spike",
             severity := if 50 ≤ change_percent then "critical" else "high",
             risk_score := current_score,
             previous_score := some previous_score,
             confidence_score := confidence_score,
             change_percentage := change_percent }
    else none

/-- Trailing 48-hour window of RiskScore records consulted by the
sustained-high check. -/
def window_scores (db : DB) (now : Int) (country_code : String) : List RiskScoreRec :=
  db.riskScores.filter fun r =>
    decide (r.country_code = country_code) && decide (now - 172800 ≤ r.date)

/-- Model of _check_sustained_high (score at least 70 across 48 hours). -/
def check_sustained_high (db : DB) (now : Int) (country_code : String)
    (current_score confidence_score : ℚ) : Option AlertCandidate :=
  if current_score < 70 then none
  else
    let scores := window_scores db now country_code
    if scores.length < 2 then none
    else if scores.all fun r => decide (70 ≤ r.overall_score) then
      some { alert_type := "sustained_high",
             severity := "critical",
             risk_score := current_score,
             previous_score := (earliestByDate scores).map fun r => r.overall_score,
             confidence_score := confidence_score,
             change_percentage := 0 }
    else none

/-- Model of _check_rapid_escalation (>50 percent within 6 hours). -/
def check_rapid_escalation (db : DB) (now : Int) (country_code : String)
    (current_score confidence_score : ℚ) : Option AlertCandidate :=
  match get_previous_score db.riskScores now country_code none (some 6) with
  | none => none
  | some previous =>
    let previous_score := previous.overall_score
    let change := current_score - previous_score
    let change_percent := if 0 < previous_score then change / previous_score * 100 else 0
    if 50 ≤ change_percent then
      some { alert_type := "rapid_escalation",
             severity := "critical",
             risk_score := current_score,
             previous_score := some previous_score,
             confidence_score := confidence_score,
             change_percentage := change_percent }
    else none

/-- Model of _should_create_alert: allow creation only when no alert of the
same type for the country was triggered within the trailing 24 hours. -/
def should_create_alert (db : DB) (now : Int) (country_code alert_type : String) : Bool :=
  !(db.alerts.any fun a =>
    decide (a.country_code = country_code) && decide (a.alert_type = alert_type) &&
    decide (now - 86400 ≤ a.triggered_at))

/-- Model of _create_alert_record (the add-plus-commit of one alert is
modelled atomically; triggered_at takes the run timestamp). -/
def create_alert_record (country_code : String) (now : Int) (cand : AlertCandidate) :
    AlertRec :=
  { country_code := country_code,
    alert_type := cand.alert_type,
    severity := cand.severity,
    triggered_at := now,
    risk_score := cand.risk_score,
    previous_score := cand.previous_score,
    confidence_score := cand.confidence_score,
    change_percentage := cand.change_percentage,
    status := "new" }

/-- One iteration of the persistence loop of detect_all_alerts: dedup check
against the evolving database, then persist the survivor. -/
def detect_step (now : Int) (country_code : String) (acc : List AlertRec × DB)
    (cand : AlertCandidate) : List AlertRec × DB :=
  if should_create_alert acc.2 now country_code cand.alert_type then
    (acc.1 ++ [create_alert_record country_code now cand],
     { acc.2 with alerts := acc.2.alerts ++ [create_alert_record country_code now cand] })
  else acc

/-- Model of AdvancedAlertDetector.detect_all_alerts: run the four pattern
checks, then persist each candidate that survives the 24-hour dedup.
Returns the created alerts and the updated database. -/
def detect_all_alerts (db : DB) (now : Int) (country_code : String)
    (current_score confidence_score : ℚ) : List AlertRec × DB :=
  let candidates :=
    [check_risk_increase db now country_code current_score confidence_score,
     check_sudden_spike db now country_code current_score confidence_score,
     check_sustained_high db now country_code current_score confidence_score,
     check_rapid_escalation db now country_code current_score confidence_score].filterMap id
  candidates.foldl (detect_step now country_code) ([], db)

/-! ## Overall risk aggregation (RiskScoringEngine.calculate_overall_risk) -/

/-- Signal weights of the aggregator. -/
def WEIGHTS_news : ℚ := 20/100

def WEIGHTS_conflict : ℚ := 40/100

def WEIGHTS_economic : ℚ := 30/100

def WEIGHTS_government : ℚ := 10/100

/-- Model of RiskScoringEngine._get_risk_level. -/
def get_risk_level (score : ℚ) : String :=
  if 75 ≤ score then "critical"
  else if 60 ≤ score then "high"
  else if 40 ≤ score then "medium"
  else if 20 ≤ score then "low"
  else "minimal"

/-- Model of RiskScoringEngine._determine_trend (compare with the most
recent score of the last 7 days). -/
def determine_trend (rs : List RiskScoreRec) (now : Int) (country_code : String)
    (current_score : ℚ) : String :=
  match latestByDate (qualifying_scores rs now (now - 7 * 86400) country_code) with
  | none => "stable"
  | some previous =>
    let diff := current_score - previous.overall_score
    if 10 < diff then "increasing"
    else if diff < -10 then "decreasing"
    else "stable"

/-- Model of RiskScoringEngine._get_historical_scores (overall scores of
the trailing days; list order is irrelevant to its only consumer, the
confidence scorer, whose statistics are permutation invariant). -/
def get_historical_scores (rs : List RiskScoreRec) (now : Int) (country_code : String)
    (days : Nat) : List ℚ :=
  (rs.filter fun r =>
    decide (r.country_code = country_code) &&
    decide (now - (days : Int) * 86400 ≤ r.date)).map fun r => r.overall_score

/-- Session commit: move pending rows into the committed store, or fail.
The commit_ok flag models whether the underlying write succeeds. -/
def commit (commit_ok : Bool) (db : DB) : Except String DB :=
  if commit_ok then
    Except.ok { riskScores := db.riskScores ++ db.pending, alerts := db.alerts, pending := [] }
  else Except.error "PersistenceError: could not write RiskScore"

/-- Session rollback: discard pending rows, committed stores untouched. -/
def rollback (db : DB) : DB := { db with pending := [] }

/-- Return dict of calculate_overall_risk (signal dicts and weights are
echoed from the inputs; calculated_at omitted). -/
structure RunResult where
  country_code : String
  overall_score : ℚ
  confidence_score : ℚ
  confidence_level : String
  risk_level : String
  trend : String
  alerts_triggered : Nat
deriving Repr, DecidableEq

/-- The weighted combination step of calculate_overall_risk (lines 562-568
of risk_engine.py). -/
def overall_weighted (news conflict economic government : Signal) : ℚ :=
  news.score * WEIGHTS_news +
  conflict.score * WEIGHTS_conflict +
  economic.score * WEIGHTS_economic +
  government.score * WEIGHTS_government

/-- Confidence result of a run: the confidence scorer applied to the four
signal dicts and the trailing 30-day historical scores. -/
def confidence_of (db : DB) (now : Int) (country_code : String)
    (news conflict economic government : Signal) : ConfidenceResult :=
  calculate_confidence news conflict economic government
    (get_historical_scores db.riskScores now country_code 30)

/-- The RiskScore row constructed and persisted by calculate_overall_risk. -/
def risk_record (db : DB) (now : Int) (country_code : String) (next_id : Nat)
    (news conflict economic government : Signal) : RiskScoreRec :=
  { id := next_id,
    country_code := country_code,
    date := now,
    overall_score := round2 (overall_weighted news conflict economic government),
    news_signal_score := round2 news.score,
    conflict_signal_score := round2 conflict.score,
    economic_signal_score := round2 economic.score,
    government_signal_score := round2 government.score,
    confidence_score := round2 (confidence_of db now country_code
      news conflict economic government).confidence_score,
    trend := determine_trend db.riskScores now country_code
      (overall_weighted news conflict economic government) }

/-- The committed state after a successful risk-score commit: the pending
rows (those of the caller plus the new risk record) land in the store. -/
def commit_result_db (db : DB) (now : Int) (country_code : String) (next_id : Nat)
    (news conflict economic government : Signal) : DB :=
  { riskScores := db.riskScores ++
      (db.pending ++ [risk_record db now country_code next_id news conflict economic government]),
    alerts := db.alerts,
    pending := [] }

/-- The success return dict of calculate_overall_risk (signal dicts,
weights and calculated_at are echoes of the inputs and are omitted). -/
def run_result (db : DB) (now : Int) (country_code : String) (next_id : Nat)
    (news conflict economic government : Signal) : RunResult :=
  { country_code := country_code,
    overall_score := round2 (overall_weighted news conflict economic government),
    confidence_score := round2 (confidence_of db now country_code
      news conflict economic government).confidence_score,
    confidence_level := (confidence_of db now country_code
      news conflict economic government).confidence_level,
    risk_level := get_risk_level (overall_weighted news conflict economic government),
    trend := determine_trend db.riskScores now country_code
      (overall_weighted news conflict economic government),
    alerts_triggered := (detect_all_alerts
      (commit_result_db db now country_code next_id news conflict economic government)
      now country_code (overall_weighted news conflict economic government)
      (confidence_of db now country_code news conflict economic government).confidence_score).1.length }

/-- Model of RiskScoringEngine.calculate_overall_risk.  The four signal
results (outputs of the signal calculators above) are parameters, exactly
the four dicts combined at the weighted-sum step of the source.  On commit
failure the except branch rolls the session back and re-raises; on success
the alert detector runs against the committed state and the assembled
result dict is returned. -/
def calculate_overall_risk (commit_ok : Bool) (db : DB) (now : Int) (country_code : String)
    (next_id : Nat) (news conflict economic government : Signal) :
    Except String RunResult × DB :=
  let risk_score := risk_record db now country_code next_id news conflict economic government
  let db1 : DB := { db with pending := db.pending ++ [risk_score] }
  match commit commit_ok db1 with
  | Except.error e => (Except.error e, rollback db1)
  | Except.ok db2 =>
    (Except.ok (run_result db now country_code next_id news conflict economic government),
     (detect_all_alerts db2 now country_code
       (overall_weighted news conflict economic government)
       (confidence_of db now country_code news conflict economic government).confidence_score).2)

/-! ## Derived observations used in claim statements -/

/-- Whether an alert row belongs to the given (country, alert_type) pair. -/
def alert_matches (country_code alert_type : String) (a : AlertRec) : Bool :=
  decide (a.country_code = country_code) && decide (a.alert_type = alert_type)

/-- Number of persisted alerts of the given (country, alert_type) pair. -/
def count_alerts (l : List AlertRec) (country_code alert_type : String) : Nat :=
  (l.filter (alert_matches country_code alert_type)).length

/-- An alert of the given pair was triggered within the trailing 24 hours. -/
def RecentExists (l : List AlertRec) (now : Int) (country_code alert_type : String) : Prop :=
  ∃ a ∈ l, a.country_code = country_code ∧ a.alert_type = alert_type ∧
    now - 86400 ≤ a.triggered_at

/-! ## Concrete fixtures used by witnesses and counterexamples -/

/-- A signal dict with every field at its dict.get default (score 0). -/
def zeroSignal : Signal := {}

/-- A signal dict whose score is 50 with no further data fields. -/
def midSignal : Signal := { score := 50 }

/-- One Battles event with 5 fatalities at the given date. -/
def c5_event (d : Int) : ConflictEventRec :=
  { country_code := "SYR", event_type := "Battles", event_date := d, fatalities := some 5 }

/-- Twenty Battles events: ten before the window midpoint, ten after. -/
def c5_events : List ConflictEventRec :=
  List.replicate 10 (c5_event 100000) ++ List.replicate 10 (c5_event 2000000)

/-- Run timestamp for the conflict scenario: 30 days after epoch, so the
window cutoff is 0 and the midpoint is 1296000. -/
def c5_now : Int := 2592000

/-- A sudden_spike alert for IND triggered 50000 seconds before the run. -/
def dedupAlert : AlertRec :=
  { country_code := "IND", alert_type := "sudden_spike", severity := "high",
    triggered_at := 950000, risk_score := 80 }

/-- Database holding one recent sudden_spike alert for IND together with a
previous risk score low enough that a new spike candidate fires. -/
def dedupDB : DB :=
  { riskScores := [{ id := 1, country_code := "IND", date := 990000, overall_score := 40 }],
    alerts := [dedupAlert] }

/-- Database with two high scores inside the 48-hour window. -/
def sustainedDB : DB :=
  { riskScores :=
      [{ id := 1, country_code := "SYR", date := 900000, overall_score := 75 },
       { id := 2, country_code := "SYR", date := 950000, overall_score := 80 }] }

/-- Database where one window record dips to 69. -/
def dipDB : DB :=
  { riskScores :=
      [{ id := 1, country_code := "SYR", date := 900000, overall_score := 75 },
       { id := 2, country_code := "SYR", date := 950000, overall_score := 69 }] }

/-- A previous risk score of 0, dated inside every lookback window. -/
def zeroPrevRec : RiskScoreRec :=
  { id := 1, country_code := "IND", date := 999000, overall_score := 0 }

/-- Database with one previous score of 0 inside every lookback window. -/
def zeroPrevDB : DB := { riskScores := [zeroPrevRec] }

/-- A qualifying record near the start of the 7-day window. -/
def twoRecEarly : RiskScoreRec :=
  { id := 1, country_code := "IND", date := 500000, overall_score := 40 }

/-- A qualifying record far more recent than twoRecEarly. -/
def twoRecLate : RiskScoreRec :=
  { id := 2, country_code := "IND", date := 990000, overall_score := 60 }

/-- Two qualifying records: one near the window start, one recent. -/
def twoRecDB : List RiskScoreRec := [twoRecEarly, twoRecLate]

/-! ## General lemmas about the model -/

theorem floor_le_roundHalfEven (q : ℚ) : ⌊q⌋ ≤ roundHalfEven q := by
  simp only [roundHalfEven]
  split_ifs <;> omega

theorem roundHalfEven_le_ceil (q : ℚ) : roundHalfEven q ≤ ⌈q⌉ := by
  simp only [roundHalfEven]
  split_ifs with h1 h2 h3
  · exact Int.floor_le_ceil q
  · have h5 : (1 : ℚ)/2 ≤ q - (⌊q⌋ : ℚ) := not_lt.mp h1
    have h6 : (⌊q⌋ : ℚ) < q := by linarith
    have h7 : (⌊q⌋ : ℚ) < (⌈q⌉ : ℚ) := lt_of_lt_of_le h6 (Int.le_ceil q)
    have h8 : ⌊q⌋ < ⌈q⌉ := by exact_mod_cast h7
    omega
  · exact Int.floor_le_ceil q
  · have h5 : (1 : ℚ)/2 ≤ q - (⌊q⌋ : ℚ) := not_lt.mp h1
    have h6 : (⌊q⌋ : ℚ) < q := by linarith
    have h7 : (⌊q⌋ : ℚ) < (⌈q⌉ : ℚ) := lt_of_lt_of_le h6 (Int.le_ceil q)
    have h8 : ⌊q⌋ < ⌈q⌉ := by exact_mod_cast h7
    omega

theorem round2_nonneg (q : ℚ) (h : 0 ≤ q) : 0 ≤ round2 q := by
  unfold round2
  have h1 : (0 : ℤ) ≤ ⌊q * 100⌋ := Int.le_floor.mpr (by push_cast; linarith)
  have h2 : (0 : ℤ) ≤ roundHalfEven (q * 100) := le_trans h1 (floor_le_roundHalfEven _)
  have h3 : (0 : ℚ) ≤ (roundHalfEven (q * 100) : ℚ) := by exact_mod_cast h2
  linarith

theorem round2_le_100 (q : ℚ) (h : q ≤ 100) : round2 q ≤ 100 := by
  unfold round2
  have h1 : roundHalfEven (q * 100) ≤ ⌈q * 100⌉ := roundHalfEven_le_ceil _
  have h2 : ⌈q * 100⌉ ≤ (10000 : ℤ) := Int.ceil_le.mpr (by push_cast; linarith)
  have h3 : (roundHalfEven (q * 100) : ℚ) ≤ 10000 := by exact_mod_cast le_trans h1 h2
  linarith

theorem foldl_laterOf_mem (l : List RiskScoreRec) (a : RiskScoreRec) :
    l.foldl laterOf a = a ∨ l.foldl laterOf a ∈ l := by
  induction l generalizing a with
  | nil => left; rfl
  | cons hd tl ih =>
    rw [List.foldl_cons]
    rcases ih (laterOf a hd) with h | h
    · rw [h]
      unfold laterOf
      split_ifs
      · right; exact List.mem_cons_self hd tl
      · left; rfl
    · right; exact List.mem_cons_of_mem hd h

theorem date_le_foldl_laterOf (l : List RiskScoreRec) (a : RiskScoreRec) :
    a.date ≤ (l.foldl laterOf a).date ∧ ∀ r ∈ l, r.date ≤ (l.foldl laterOf a).date := by
  induction l generalizing a with
  | nil => exact ⟨le_refl _, by simp⟩
  | cons hd tl ih =>
    obtain ⟨h1, h2⟩ := ih (laterOf a hd)
    have ha : a.date ≤ (laterOf a hd).date := by
      unfold laterOf; split_ifs with h
      · exact le_of_lt h
      · exact le_refl _
    have hhd : hd.date ≤ (laterOf a hd).date := by
      unfold laterOf; split_ifs with h
      · exact le_refl _
      · exact not_lt.mp h
    rw [List.foldl_cons]
    refine ⟨le_trans ha h1, ?_⟩
    intro r hr
    rcases List.mem_cons.mp hr with h | h
    · rw [h]; exact le_trans hhd h1
    · exact h2 r h

theorem latestByDate_spec (l : List RiskScoreRec) (p : RiskScoreRec)
    (h : latestByDate l = some p) : p ∈ l ∧ ∀ r ∈ l, r.date ≤ p.date := by
  cases l with
  | nil => exact absurd h (by simp [latestByDate])
  | cons hd tl =>
    have h1 : tl.foldl laterOf hd = p := by
      simpa [latestByDate] using h
    subst h1
    constructor
    · rcases foldl_laterOf_mem tl hd with h2 | h2
      · rw [h2]; exact List.mem_cons_self hd tl
      · exact List.mem_cons_of_mem hd h2
    · intro r hr
      obtain ⟨h2, h3⟩ := date_le_foldl_laterOf tl hd
      rcases List.mem_cons.mp hr with h4 | h4
      · rw [h4]; exact h2
      · exact h3 r h4

theorem detect_step_riskScores (now : Int) (c : String) (acc : List AlertRec × DB)
    (cand : AlertCandidate) : (detect_step now c acc cand).2.riskScores = acc.2.riskScores := by
  unfold detect_step
  split_ifs <;> rfl

theorem foldl_detect_step_riskScores (now : Int) (c : String) (cands : List AlertCandidate) :
    ∀ acc, ((cands.foldl (detect_step now c) acc).2).riskScores = acc.2.riskScores := by
  induction cands with
  | nil => intro acc; rfl
  | cons hd tl ih =>
    intro acc
    rw [List.foldl_cons, ih, detect_step_riskScores]

theorem detect_all_alerts_riskScores (db : DB) (now : Int) (c : String)
    (current conf : ℚ) : (detect_all_alerts db now c current conf).2.riskScores = db.riskScores := by
  unfold detect_all_alerts
  exact foldl_detect_step_riskScores now c _ ([], db)

theorem should_create_alert_eq_false (db : DB) (now : Int) (c t : String)
    (h : RecentExists db.alerts now c t) : should_create_alert db now c t = false := by
  obtain ⟨a, ha, h1, h2, h3⟩ := h
  have hany : (db.alerts.any fun a =>
      decide (a.country_code = c) && decide (a.alert_type = t) &&
      decide (now - 86400 ≤ a.triggered_at)) = true :=
    List.any_eq_true.mpr ⟨a, ha, by simp [h1, h2, h3]⟩
  unfold should_create_alert
  rw [hany]
  rfl

theorem detect_step_count (now : Int) (c t : String) (acc : List AlertRec × DB)
    (cand : AlertCandidate) (h : RecentExists acc.2.alerts now c t) :
    count_alerts ((detect_step now c acc cand).2.alerts) c t = count_alerts acc.2.alerts c t ∧
    RecentExists ((detect_step now c acc cand).2.alerts) now c t := by
  unfold detect_step
  split_ifs with hcr
  · have hne : cand.alert_type ≠ t := by
      intro he
      rw [he, should_create_alert_eq_false acc.2 now c t h] at hcr
      exact Bool.false_ne_true hcr
    constructor
    · unfold count_alerts
      rw [List.filter_append]
      have hnil : List.filter (alert_matches c t) [create_alert_record c now cand] = [] := by
        simp [alert_matches, create_alert_record, hne]
      rw [hnil, List.append_nil]
    · obtain ⟨a, ha, hrest⟩ := h
      exact ⟨a, List.mem_append_left _ ha, hrest⟩
  · exact ⟨rfl, h⟩

theorem foldl_detect_step_count (now : Int) (c t : String) (cands : List AlertCandidate) :
    ∀ acc, RecentExists acc.2.alerts now c t →
    count_alerts ((cands.foldl (detect_step now c) acc).2.alerts) c t =
    count_alerts acc.2.alerts c t := by
  induction cands with
  | nil => intro acc _; rfl
  | cons hd tl ih =>
    intro acc h
    obtain ⟨hcount, hrec⟩ := detect_step_count now c t acc hd h
    rw [List.foldl_cons, ih _ hrec, hcount]

theorem overall_risk_true_fst (db : DB) (now : Int) (c : String) (nid : Nat)
    (n co e g : Signal) :
    (calculate_overall_risk true db now c nid n co e g).1 =
    Except.ok (run_result db now c nid n co e g) := rfl

theorem overall_risk_true_riskScores (db : DB) (now : Int) (c : String) (nid : Nat)
    (n co e g : Signal) :
    (calculate_overall_risk true db now c nid n co e g).2.riskScores =
    db.riskScores ++ (db.pending ++ [risk_record db now c nid n co e g]) :=
  detect_all_alerts_riskScores (commit_result_db db now c nid n co e g) now c
    (overall_weighted n co e g) (confidence_of db now c n co e g).confidence_score

theorem overall_risk_false_eq (db : DB) (now : Int) (c : String) (nid : Nat)
    (n co e g : Signal) :
    calculate_overall_risk false db now c nid n co e g =
    (Except.error "PersistenceError: could not write RiskScore",
     { riskScores := db.riskScores, alerts := db.alerts, pending := [] }) := rfl

/-! ## Claim theorems -/

/-- C6: for the economic signal when only INFLATION data is available with
latest value 12, the inflation sub-score is 85, the gdp and unemployment
sub-scores default to 50, and the returned economic score is
85 * 0.4 + 50 * 0.4 + 50 * 0.2 = 64. -/
theorem economic_inflation_only_scenario (rest : List ℚ) :
    (calculate_economic_signal [] (12 :: rest) []).inflation_score = 85 ∧
    (calculate_economic_signal [] (12 :: rest) []).gdp_score = 50 ∧
    (calculate_economic_signal [] (12 :: rest) []).unemployment_score = 50 ∧
    (calculate_economic_signal [] (12 :: rest) []).score =
      85 * (40/100) + 50 * (40/100) + 50 * (20/100) ∧
    (calculate_economic_signal [] (12 :: rest) []).score = 64 := by
  norm_num [calculate_economic_signal, score_gdp_growth, score_inflation, score_unemployment,
    clamp100, round2, roundHalfEven, min_def, max_def]

/-- C7: the news signal calculator never raises: on any input whose fetch
stage raises, it returns score 0, method "error", and the raised message in
the error field. -/
theorem news_signal_error_path (e : String) (ml : Except String MLAggregate)
    (use_ml : Bool) (days : Nat) :
    (calculate_news_signal (Except.error e) ml use_ml days).score = 0 ∧
    (calculate_news_signal (Except.error e) ml use_ml days).method = "error" ∧
    (calculate_news_signal (Except.error e) ml use_ml days).error = some e :=
  ⟨rfl, rfl, rfl⟩

/-- C9: in each change-based check, a previous overall_score of 0 (or
negative) makes change_percent 0, so neither risk_increase, sudden_spike
nor rapid_escalation can fire, whatever the current score. -/
theorem zero_baseline_never_fires (db : DB) (now : Int) (c : String)
    (current_score confidence_score : ℚ) :
    (∀ p, get_previous_score db.riskScores now c (some 7) none = some p →
      p.overall_score ≤ 0 → check_risk_increase db now c current_score confidence_score = none) ∧
    (∀ p, get_previous_score db.riskScores now c none (some 24) = some p →
      p.overall_score ≤ 0 → check_sudden_spike db now c current_score confidence_score = none) ∧
    (∀ p, get_previous_score db.riskScores now c none (some 6) = some p →
      p.overall_score ≤ 0 → check_rapid_escalation db now c current_score confidence_score = none) := by
  refine ⟨?_, ?_, ?_⟩ <;> intro p hp hle
  · simp only [check_risk_increase, hp]
    rw [if_neg (not_lt.mpr hle)]
    norm_num
  · simp only [check_sudden_spike, hp]
    rw [if_neg (not_lt.mpr hle)]
    norm_num
  · simp only [check_rapid_escalation, hp]
    rw [if_neg (not_lt.mpr hle)]
    norm_num

/-- Witness for C9: a stored score of 0 dated inside every window, current
score 100: none of the three change-based checks fires. -/
theorem zero_baseline_never_fires_witness :
    check_risk_increase zeroPrevDB 1000000 "IND" 100 80 = none ∧
    check_sudden_spike zeroPrevDB 1000000 "IND" 100 80 = none ∧
    check_rapid_escalation zeroPrevDB 1000000 "IND" 100 80 = none := by
  have h := zero_baseline_never_fires zeroPrevDB 1000000 "IND" 100 80
  exact ⟨h.1 zeroPrevRec rfl (by norm_num [zeroPrevRec]),
         h.2.1 zeroPrevRec rfl (by norm_num [zeroPrevRec]),
         h.2.2 zeroPrevRec rfl (by norm_num [zeroPrevRec])⟩

/-- C10: _get_previous_score returns a qualifying record (same country,
strictly before now, inside the lookback window) of maximal date: the most
recent one, not the one closest to the window start. -/
theorem previous_score_is_most_recent (rs : List RiskScoreRec) (now : Int)
    (country_code : String) (days hours : Option Nat) (p : RiskScoreRec)
    (h : get_previous_score rs now country_code days hours = some p) :
    p ∈ qualifying_scores rs now (prev_cutoff now days hours) country_code ∧
    ∀ r ∈ qualifying_scores rs now (prev_cutoff now days hours) country_code,
      r.date ≤ p.date :=
  latestByDate_spec _ p h

/-- Witness for C10: with one record near the window start and one recent
record, the lookup returns the recent record and every qualifying record is
dated no later than it. -/
theorem previous_score_is_most_recent_witness :
    get_previous_score twoRecDB 1000000 "IND" (some 7) none = some twoRecLate ∧
    twoRecLate ∈ qualifying_scores twoRecDB 1000000 (prev_cutoff 1000000 (some 7) none) "IND" ∧
    ∀ r ∈ qualifying_scores twoRecDB 1000000 (prev_cutoff 1000000 (some 7) none) "IND",
      r.date ≤ twoRecLate.date := by
  have h := previous_score_is_most_recent twoRecDB 1000000 "IND" (some 7) none twoRecLate rfl
  exact ⟨rfl, h.1, h.2⟩

/-- C3: the sustained_high check produces a candidate if and only if the
current score is at least 70, at least 2 RiskScore records lie in the
trailing 48-hour window, and every record in the window has overall_score
at least 70; any produced candidate has severity critical. -/
theorem sustained_high_iff (db : DB) (now : Int) (c : String)
    (current_score confidence_score : ℚ) :
    ((check_sustained_high db now c current_score confidence_score).isSome ↔
      70 ≤ current_score ∧ 2 ≤ (window_scores db now c).length ∧
      ∀ r ∈ window_scores db now c, 70 ≤ r.overall_score) ∧
    ∀ cand, check_sustained_high db now c current_score confidence_score = some cand →
      cand.severity = "critical" := by
  simp only [check_sustained_high]
  split_ifs with h1 h2 h3
  · constructor
    · simp only [Option.isSome_none, Bool.false_eq_true, false_iff]
      rintro ⟨h70, -, -⟩
      linarith
    · intro cand hc
      exact absurd hc (by simp)
  · constructor
    · simp only [Option.isSome_none, Bool.false_eq_true, false_iff]
      rintro ⟨-, hlen, -⟩
      omega
    · intro cand hc
      exact absurd hc (by simp)
  · constructor
    · simp only [Option.isSome_some, true_iff]
      refine ⟨not_lt.mp h1, by omega, ?_⟩
      intro r hr
      have := List.all_eq_true.mp h3 r hr
      simpa using this
    · intro cand hc
      simp only [Option.some.injEq] at hc
      rw [← hc]
  · constructor
    · simp only [Option.isSome_none, Bool.false_eq_true, false_iff]
      rintro ⟨-, -, hall⟩
      exact h3 (List.all_eq_true.mpr fun r hr => by simpa using hall r hr)
    · intro cand hc
      exact absurd hc (by simp)

/-- Witness for C3: two window records at 75 and 80 with current score 72
fire a critical candidate; replacing the 80 by a 69 suppresses the alert. -/
theorem sustained_high_iff_witness :
    (check_sustained_high sustainedDB 1000000 "SYR" 72 55).isSome = true ∧
    (∀ cand, check_sustained_high sustainedDB 1000000 "SYR" 72 55 = some cand →
      cand.severity = "critical") ∧
    check_sustained_high dipDB 1000000 "SYR" 72 55 = none := by
  have hfire := sustained_high_iff sustainedDB 1000000 "SYR" 72 55
  have hdip := sustained_high_iff dipDB 1000000 "SYR" 72 55
  have hw : window_scores sustainedDB 1000000 "SYR" = sustainedDB.riskScores := rfl
  have hwd : window_scores dipDB 1000000 "SYR" = dipDB.riskScores := rfl
  refine ⟨?_, hfire.2, ?_⟩
  · refine hfire.1.mpr ⟨by norm_num, by rw [hw]; norm_num [sustainedDB], ?_⟩
    intro r hr
    rw [hw] at hr
    simp only [sustainedDB, List.mem_cons, List.not_mem_nil, or_false] at hr
    rcases hr with h | h <;> rw [h] <;> norm_num
  · have : ¬ (70 ≤ (72:ℚ) ∧ 2 ≤ (window_scores dipDB 1000000 "SYR").length ∧
        ∀ r ∈ window_scores dipDB 1000000 "SYR", 70 ≤ r.overall_score) := by
      rintro ⟨-, -, hall⟩
      have h69 := hall { id := 2, country_code := "SYR", date := 950000, overall_score := 69 }
        (by rw [hwd]; simp [dipDB])
      norm_num at h69
    have h2 := hdip.1.not.mpr this
    simpa [Option.not_isSome_iff_eq_none] using h2

/-- C4 counterexample: with all four signal scores zero (so fewer than 2
non-zero signals) and no historical scores (fewer than 3), the confidence
scorer returns 32.5 and level very_low, not 50 and medium. -/
theorem confidence_fifty_counterexample :
    (positive_scores zeroSignal zeroSignal zeroSignal zeroSignal).length < 2 ∧
    ([] : List ℚ).length < 3 ∧
    (calculate_confidence zeroSignal zeroSignal zeroSignal zeroSignal []).confidence_score = 65/2 ∧
    (calculate_confidence zeroSignal zeroSignal zeroSignal zeroSignal []).confidence_level =
      "very_low" ∧
    ¬((calculate_confidence zeroSignal zeroSignal zeroSignal zeroSignal []).confidence_score = 50 ∧
      (calculate_confidence zeroSignal zeroSignal zeroSignal zeroSignal []).confidence_level =
        "medium") := by
  have h3 : (calculate_confidence zeroSignal zeroSignal zeroSignal zeroSignal []).confidence_score
      = 65/2 := by
    norm_num [calculate_confidence, source_count_score, freshness_score, consistency_score,
      historical_validation, positive_scores, zeroSignal, round2, roundHalfEven, min_def, max_def]
  have h4 : (calculate_confidence zeroSignal zeroSignal zeroSignal zeroSignal []).confidence_level
      = "very_low" := by
    norm_num [calculate_confidence, source_count_score, freshness_score, consistency_score,
      historical_validation, positive_scores, zeroSignal, get_confidence_level, round2,
      roundHalfEven, min_def, max_def]
  refine ⟨by norm_num [positive_scores, zeroSignal], by norm_num, h3, h4, ?_⟩
  rintro ⟨ha, -⟩
  rw [h3] at ha
  norm_num at ha

/-- C4 amended: with fewer than 2 positive signal scores and fewer than 3
historical scores, the consistency and historical-validation components are
each 50; the returned confidence_score is then the rounded weighted sum of
the remaining components with both undetermined components at 50 (and need
not itself be 50). -/
theorem confidence_undetermined_components (news conflict economic government : Signal)
    (historical_scores : List ℚ)
    (h1 : (positive_scores news conflict economic government).length < 2)
    (h2 : historical_scores.length < 3) :
    consistency_score news conflict economic government = 50 ∧
    historical_validation historical_scores = 50 ∧
    (calculate_confidence news conflict economic government historical_scores).confidence_score =
      round2 (source_count_score news conflict economic government * (30/100) +
        freshness_score news conflict economic government * (25/100) +
        50 * (25/100) + 50 * (20/100)) := by
  have hc : consistency_score news conflict economic government = 50 := by
    unfold consistency_score
    rw [if_pos h1]
  have hh : historical_validation historical_scores = 50 := by
    unfold historical_validation
    rw [if_pos h2]
  refine ⟨hc, hh, ?_⟩
  simp only [calculate_confidence]
  rw [hc, hh]

/-- Witness for C4 amended: the all-zero input satisfies both hypotheses
and both undetermined components evaluate to 50. -/
theorem confidence_undetermined_components_witness :
    consistency_score zeroSignal zeroSignal zeroSignal zeroSignal = 50 ∧
    historical_validation [] = 50 := by
  have h := confidence_undetermined_components zeroSignal zeroSignal zeroSignal zeroSignal []
    (by norm_num [positive_scores, zeroSignal]) (by norm_num)
  exact ⟨h.1, h.2.1⟩

/-- C5 counterexample: in the stated 20-Battles scenario each event has 5
fatalities, which triggers the any-casualty multiplier of 1.1, so the
per-event weighted severity is 11, not the base severity 10. -/
theorem conflict_scenario_counterexample :
    (calculate_conflict_signal c5_events c5_now "SYR" 30).avg_severity ≠ 10 := by
  norm_num [calculate_conflict_signal, c5_events, c5_event, c5_now, List.replicate,
    event_severity_weight, casualty_multiplier, round2, roundHalfEven, frequency_score,
    clamp100, List.filter, List.map, List.sum]

/-- C5 amended: for 20 Battles events split 10 before and 10 after the
window midpoint with 5 fatalities each, escalation_rate is 0 and the
frequency component caps at 40; each event has 0 < 5 fatalities, so the
1.1 casualty multiplier applies and the average weighted severity is
10 * 1.1 = 11 rather than the base severity 10. -/
theorem conflict_scenario_values :
    (calculate_conflict_signal c5_events c5_now "SYR" 30).event_count = 20 ∧
    (calculate_conflict_signal c5_events c5_now "SYR" 30).total_fatalities = 100 ∧
    (calculate_conflict_signal c5_events c5_now "SYR" 30).escalation_rate = 0 ∧
    frequency_score 20 = 40 ∧
    casualty_multiplier 5 = 11/10 ∧
    event_severity_weight "Battles" * casualty_multiplier 5 = 11 ∧
    (calculate_conflict_signal c5_events c5_now "SYR" 30).avg_severity = 11 := by
  norm_num [calculate_conflict_signal, c5_events, c5_event, c5_now, List.replicate,
    event_severity_weight, casualty_multiplier, round2, roundHalfEven, frequency_score,
    clamp100, List.filter, List.map, List.sum, min_def]

/-- C2: if an alert of the given (country, alert_type) pair was persisted
within the trailing 24 hours, a run of the alert detector persists no
further alert of that pair: its count is unchanged. -/
theorem alert_dedup_window (db : DB) (now : Int) (c t : String)
    (current_score confidence_score : ℚ)
    (h : RecentExists db.alerts now c t) :
    count_alerts ((detect_all_alerts db now c current_score confidence_score).2.alerts) c t =
    count_alerts db.alerts c t := by
  unfold detect_all_alerts
  exact foldl_detect_step_count now c t _ ([], db) h

/-- Witness for C2: a sudden_spike alert for IND fired 50000 seconds ago;
a run whose spike candidate fires again (score 40 to 90 within 24 hours)
leaves the sudden_spike count unchanged. -/
theorem alert_dedup_window_witness :
    count_alerts ((detect_all_alerts dedupDB 1000000 "IND" 90 80).2.alerts)
      "IND" "sudden_spike" = count_alerts dedupDB.alerts "IND" "sudden_spike" :=
  alert_dedup_window dedupDB 1000000 "IND" "sudden_spike" 90 80
    ⟨dedupAlert, by simp [dedupDB], rfl, rfl, by norm_num [dedupAlert]⟩

/-- C1: with commit succeeding, calculate_overall_risk returns a result
whose overall_score is the rounded weighted sum of the four signal scores
with weights 0.20, 0.40, 0.30, 0.10, persists a RiskScore row carrying the
same overall_score, and the score lies in [0, 100] whenever every signal
score does; the weights sum to 1. -/
theorem overall_weighted_sum_and_bounds (db : DB) (now : Int) (c : String) (nid : Nat)
    (news conflict economic government : Signal)
    (hn1 : 0 ≤ news.score) (hn2 : news.score ≤ 100)
    (hc1 : 0 ≤ conflict.score) (hc2 : conflict.score ≤ 100)
    (he1 : 0 ≤ economic.score) (he2 : economic.score ≤ 100)
    (hg1 : 0 ≤ government.score) (hg2 : government.score ≤ 100) :
    ∃ r : RunResult,
      (calculate_overall_risk true db now c nid news conflict economic government).1 =
        Except.ok r ∧
      r.overall_score = round2 (news.score * (20/100) + conflict.score * (40/100) +
        economic.score * (30/100) + government.score * (10/100)) ∧
      (∃ rec ∈ (calculate_overall_risk true db now c nid
          news conflict economic government).2.riskScores,
        rec.id = nid ∧ rec.overall_score = r.overall_score) ∧
      0 ≤ r.overall_score ∧ r.overall_score ≤ 100 ∧
      WEIGHTS_news + WEIGHTS_conflict + WEIGHTS_economic + WEIGHTS_government = 1 := by
  have how : overall_weighted news conflict economic government =
      news.score * (20/100) + conflict.score * (40/100) +
      economic.score * (30/100) + government.score * (10/100) := rfl
  have h0 : 0 ≤ overall_weighted news conflict economic government := by
    rw [how]; linarith
  have h100 : overall_weighted news conflict economic government ≤ 100 := by
    rw [how]; linarith
  refine ⟨run_result db now c nid news conflict economic government,
    overall_risk_true_fst db now c nid news conflict economic government,
    ?_, ?_, ?_, ?_,
    by norm_num [WEIGHTS_news, WEIGHTS_conflict, WEIGHTS_economic, WEIGHTS_government]⟩
  · show round2 (overall_weighted news conflict economic government) = _
    rw [how]
  · refine ⟨risk_record db now c nid news conflict economic government, ?_, rfl, rfl⟩
    rw [overall_risk_true_riskScores]
    simp
  · show 0 ≤ round2 (overall_weighted news conflict economic government)
    exact round2_nonneg _ h0
  · show round2 (overall_weighted news conflict economic government) ≤ 100
    exact round2_le_100 _ h100

/-- Witness for C1: four signals of score 50 against an empty database. -/
theorem overall_weighted_sum_and_bounds_witness :
    (0 : ℚ) ≤ midSignal.score ∧ midSignal.score ≤ 100 ∧
    ∃ r : RunResult,
      (calculate_overall_risk true {} 0 "IND" 1 midSignal midSignal midSignal midSignal).1 =
        Except.ok r ∧
      r.overall_score = round2 (midSignal.score * (20/100) + midSignal.score * (40/100) +
        midSignal.score * (30/100) + midSignal.score * (10/100)) ∧
      (∃ rec ∈ (calculate_overall_risk true {} 0 "IND" 1
          midSignal midSignal midSignal midSignal).2.riskScores,
        rec.id = 1 ∧ rec.overall_score = r.overall_score) ∧
      0 ≤ r.overall_score ∧ r.overall_score ≤ 100 ∧
      WEIGHTS_news + WEIGHTS_conflict + WEIGHTS_economic + WEIGHTS_government = 1 := by
  refine ⟨by norm_num [midSignal], by norm_num [midSignal], ?_⟩
  exact overall_weighted_sum_and_bounds {} 0 "IND" 1 midSignal midSignal midSignal midSignal
    (by norm_num [midSignal]) (by norm_num [midSignal]) (by norm_num [midSignal])
    (by norm_num [midSignal]) (by norm_num [midSignal]) (by norm_num [midSignal])
    (by norm_num [midSignal]) (by norm_num [midSignal])

/-- C8: a failed commit makes calculate_overall_risk propagate an error
and leave the committed stores unchanged with no partial write pending;
conversely any successful return has a RiskScore row for this run, with
the returned overall_score, in the committed store. -/
theorem persistence_rollback_or_persisted (db : DB) (now : Int) (c : String) (nid : Nat)
    (news conflict economic government : Signal) :
    ((calculate_overall_risk false db now c nid news conflict economic government).1 =
        Except.error "PersistenceError: could not write RiskScore" ∧
      (calculate_overall_risk false db now c nid
        news conflict economic government).2.riskScores = db.riskScores ∧
      (calculate_overall_risk false db now c nid
        news conflict economic government).2.alerts = db.alerts ∧
      (calculate_overall_risk false db now c nid
        news conflict economic government).2.pending = []) ∧
    ∀ (commit_ok : Bool) (r : RunResult),
      (calculate_overall_risk commit_ok db now c nid news conflict economic government).1 =
        Except.ok r →
      ∃ rec ∈ (calculate_overall_risk commit_ok db now c nid
          news conflict economic government).2.riskScores,
        rec.country_code = c ∧ rec.date = now ∧ rec.overall_score = r.overall_score := by
  constructor
  · rw [overall_risk_false_eq]
    exact ⟨rfl, rfl, rfl, rfl⟩
  · intro commit_ok r h
    cases commit_ok with
    | false =>
      rw [overall_risk_false_eq] at h
      exact Except.noConfusion h
    | true =>
      rw [overall_risk_true_fst] at h
      injection h with hr
      refine ⟨risk_record db now c nid news conflict economic government, ?_, rfl, rfl, ?_⟩
      · rw [overall_risk_true_riskScores]
        simp
      · rw [← hr]
        rfl

/-- Witness for C8: against an empty database, the failing run reports the
persistence error with nothing written, and the succeeding run has its row
in the committed store. -/
theorem persistence_rollback_or_persisted_witness :
    (calculate_overall_risk false {} 0 "IND" 1 midSignal midSignal midSignal midSignal).1 =
      Except.error "PersistenceError: could not write RiskScore" ∧
    (calculate_overall_risk false {} 0 "IND" 1
      midSignal midSignal midSignal midSignal).2.riskScores = [] ∧
    ∃ rec ∈ (calculate_overall_risk true {} 0 "IND" 1
        midSignal midSignal midSignal midSignal).2.riskScores,
      rec.country_code = "IND" ∧ rec.date = 0 ∧
      rec.overall_score =
        (run_result {} 0 "IND" 1 midSignal midSignal midSignal midSignal).overall_score := by
  have h := persistence_rollback_or_persisted {} 0 "IND" 1 midSignal midSignal midSignal midSignal
  exact ⟨h.1.1, h.1.2.1,
    h.2 true (run_result {} 0 "IND" 1 midSignal midSignal midSignal midSignal) rfl⟩

end AISPGR
